import Mathlib

/-!
Verification of the quiz engine: answer validation, scoring, shuffling and the
quiz-session state machine, shallowly embedded from the JavaScript sources
(`src/utils/scoringUtils.js`, `src/utils/shuffleUtils.js`,
`src/utils/quizLogic.js`, `src/components/QuizInterface.js`).

Modelling conventions:
* JavaScript numbers that hold option identifiers, indices and counts are
  embedded as `Nat`; the score percentage (an integer produced by
  `Math.round`) is embedded as `Int`, with `Math.round x` modelled exactly on
  rationals as `⌊x + 1/2⌋` (round half toward positive infinity, which is
  `Math.round`'s behaviour for the non-negative values arising here).
* `new Date()` timestamps are embedded as a `Nat` clock value passed in as an
  explicit `now` argument.
* `Math.random()` draws are embedded as an explicit stream `rand : Nat → Nat`;
  the draw used at loop index `i` is `rand i % (i + 1)`, which ranges over
  `[0, i]` exactly as `Math.floor(Math.random() * (i + 1))` does.
* JS arrays become `List`s; a JS array slot that may hold `null` becomes an
  `Option`; out-of-range reads (which yield `undefined`, falsy) are embedded
  with `l[i]?` returning `none`.
-/

/-- One selectable choice of a question (fields as in the JSON data model:
`optionnumber`, `optiontext`, `iscorrect`). -/
structure QOption where
  optionnumber : Nat
  optiontext : String
  iscorrect : Bool
  deriving DecidableEq

/-- One quiz item: `questionnumber`, prompt text `question`, and its list of
options. -/
structure Question where
  questionnumber : Nat
  question : String
  options : List QOption
  deriving DecidableEq

/-- From `scoringUtils.js` `arraysEqual`: length check, then compare sorted
copies pointwise.  The JS source sorts with the default comparator (decimal
string comparison); since pointwise equality of the two sorted copies is the
same verdict under any fixed total order on numbers, we sort numerically.
The JS null/array-type guards cannot fire on `List` arguments; note that an
empty JS array is truthy, so `arraysEqual([], [])` follows the main path. -/
def arraysEqual (arr1 arr2 : List Nat) : Bool :=
  arr1.length == arr2.length &&
    List.insertionSort (· ≤ ·) arr1 == List.insertionSort (· ≤ ·) arr2

/-- From `scoringUtils.js` `getCorrectOptions`: option numbers of the options
flagged `iscorrect`. -/
def getCorrectOptions (question : Question) : List Nat :=
  (question.options.filter (fun option => option.iscorrect)).map
    (fun option => option.optionnumber)

/-- From `scoringUtils.js` `validateAnswer`. -/
def validateAnswer (selectedOptions : List Nat) (question : Question) : Bool :=
  arraysEqual selectedOptions (getCorrectOptions question)

/-- From `scoringUtils.js` `isMultipleChoice`. -/
def isMultipleChoice (question : Question) : Bool :=
  (question.options.filter (fun option => option.iscorrect)).length > 1

/-- Per-question score record returned by `calculateQuestionScore`. -/
structure QuestionScore where
  points : Nat
  isCorrect : Bool
  maxPoints : Nat
  deriving DecidableEq

/-- From `scoringUtils.js` `calculateQuestionScore`. -/
def calculateQuestionScore (selectedOptions : List Nat) (question : Question) :
    QuestionScore :=
  let isCorrect := validateAnswer selectedOptions question
  { points := if isCorrect then 1 else 0, isCorrect := isCorrect, maxPoints := 1 }

/-- A recorded user answer (`{ selectedOptions, timestamp }`). -/
structure UserAnswer where
  selectedOptions : List Nat
  timestamp : Nat
  deriving DecidableEq

/-- The per-question breakdown entry pushed onto `questionScores`. -/
structure QuestionScoreDetail where
  questionIndex : Nat
  points : Nat
  isCorrect : Bool
  maxPoints : Nat
  selectedOptions : List Nat
  correctOptions : List Nat
  deriving DecidableEq

/-- The summary record returned by `calculateTotalScore`. -/
structure ScoreSummary where
  correct : Nat
  total : Nat
  percentage : Int
  questionScores : List QuestionScoreDetail
  passed : Bool
  deriving DecidableEq

/-- `Math.round` on an exact rational: round half toward positive infinity,
`⌊x + 1/2⌋` (stated via the executable `Rat.floor`; see `mathRound_eq_floor`). -/
def mathRound (x : ℚ) : Int :=
  (x + 1/2).floor

/-- `userAnswers[index]` followed by `userAnswer ? userAnswer.selectedOptions : []`:
a missing slot (`undefined`) or a `null` entry both yield the empty selection. -/
def selectionAt (userAnswers : List (Option UserAnswer)) (index : Nat) :
    List Nat :=
  match userAnswers[index]? with
  | some (some userAnswer) => userAnswer.selectedOptions
  | _ => []

/-- The `questions.forEach` accumulation loop of `calculateTotalScore`,
carrying the running index: returns the correct count together with the
`questionScores` breakdown, in question order. -/
def scoreLoop (userAnswers : List (Option UserAnswer)) :
    List Question → Nat → Nat × List QuestionScoreDetail
  | [], _ => (0, [])
  | question :: rest, index =>
    let selectedOptions := selectionAt userAnswers index
    let questionScore := calculateQuestionScore selectedOptions question
    let tail := scoreLoop userAnswers rest (index + 1)
    ((if questionScore.isCorrect then 1 else 0) + tail.1,
      { questionIndex := index
        points := questionScore.points
        isCorrect := questionScore.isCorrect
        maxPoints := questionScore.maxPoints
        selectedOptions := selectedOptions
        correctOptions := getCorrectOptions question } :: tail.2)

/-- From `scoringUtils.js` `calculateTotalScore`. -/
def calculateTotalScore (userAnswers : List (Option UserAnswer))
    (questions : List Question) : ScoreSummary :=
  let totalQuestions := questions.length
  let loop := scoreLoop userAnswers questions 0
  let correctCount := loop.1
  let percentage : Int :=
    if totalQuestions > 0 then
      mathRound ((correctCount : ℚ) / (totalQuestions : ℚ) * 100)
    else 0
  { correct := correctCount
    total := totalQuestions
    percentage := percentage
    questionScores := loop.2
    passed := percentage ≥ 70 }

/-- The destructuring swap `[a[i], a[j]] = [a[j], a[i]]` inside the
Fisher–Yates loop: both reads happen before either write.  Out-of-range
indices leave the list unchanged (the loop below only uses in-range ones). -/
def listSwap (l : List α) (i j : Nat) : List α :=
  match l[i]?, l[j]? with
  | some xi, some xj => (l.set i xj).set j xi
  | _, _ => l

/-- The `for (let i = length - 1; i > 0; i--)` loop of `shuffleArray`: at
index `i` it draws `j = Math.floor(Math.random() * (i + 1)) ∈ [0, i]`
(embedded as `rand i % (i + 1)`) and swaps positions `i` and `j`. -/
def fisherYatesAux (rand : Nat → Nat) (l : List α) : Nat → List α
  | 0 => l
  | Nat.succ k =>
    fisherYatesAux rand (listSwap l (k + 1) (rand (k + 1) % (k + 2))) k

/-- From `shuffleUtils.js` `shuffleArray`: copies the input
(`const shuffled = [...array]`) and runs the Fisher–Yates loop on the copy,
so the input list itself is never written to. -/
def shuffleArray (l : List α) (rand : Nat → Nat) : List α :=
  fisherYatesAux rand l (l.length - 1)

/-- From `shuffleUtils.js` `shuffleQuestions`. -/
def shuffleQuestions (questions : List Question) (rand : Nat → Nat) :
    List Question :=
  shuffleArray questions rand

/-- From `shuffleUtils.js` `shuffleQuestionOptions`: builds a new question
record (`{...question, options: shuffleArray(question.options)}`); the
original question value is untouched. -/
def shuffleQuestionOptions (question : Question) (rand : Nat → Nat) :
    Question :=
  { question with options := shuffleArray question.options rand }

/-- `processedQuestions.map(shuffleQuestionOptions)`: each call to
`shuffleQuestionOptions` consumes fresh `Math.random()` draws, embedded by
giving the call at list position `i` its own stream `randO i`. -/
def mapShuffleQuestionOptions (randO : Nat → Nat → Nat) (i : Nat) :
    List Question → List Question
  | [] => []
  | question :: rest =>
    shuffleQuestionOptions question (randO i) ::
      mapShuffleQuestionOptions randO (i + 1) rest

/-- From `shuffleUtils.js` `prepareQuestionsForMode`: copies the input; in
mode `"test-difficult"` shuffles the question order and then shuffles each
question's options; every other mode returns the (copied) input unchanged. -/
def prepareQuestionsForMode (questions : List Question) (mode : String)
    (randQ : Nat → Nat) (randO : Nat → Nat → Nat) : List Question :=
  let processedQuestions := questions
  if mode == "test-difficult" then
    mapShuffleQuestionOptions randO 0 (shuffleQuestions processedQuestions randQ)
  else processedQuestions

/-- The quiz session state of `quizLogic.js` (`createInitialQuizState`):
`userAnswers` has one slot per question, `null` (`none`) when unanswered. -/
structure QuizState where
  assignment : String
  mode : String
  questions : List Question
  currentQuestionIndex : Nat
  userAnswers : List (Option UserAnswer)
  startTime : Nat
  endTime : Option Nat
  isComplete : Bool
  showFeedback : Bool
  deriving DecidableEq

/-- From `quizLogic.js` `createInitialQuizState`. -/
def createInitialQuizState (questions : List Question)
    (assignment mode : String) (now : Nat) : QuizState :=
  { assignment := assignment
    mode := mode
    questions := questions
    currentQuestionIndex := 0
    userAnswers := List.replicate questions.length none
    startTime := now
    endTime := none
    isComplete := false
    showFeedback := mode == "learn" }

/-- From `quizLogic.js` `updateQuizStateWithAnswer`: copies the answers array
(`[...quizState.userAnswers]`), writes the new `{ selectedOptions, timestamp }`
record at `questionIndex` in the copy, and returns a new state with the copy.
(`List.set` matches the JS write for in-range indices; the state-machine
callers only pass `currentQuestionIndex`, which is in range.) -/
def updateQuizStateWithAnswer (quizState : QuizState) (questionIndex : Nat)
    (selectedOptions : List Nat) (now : Nat) : QuizState :=
  { quizState with
      userAnswers :=
        quizState.userAnswers.set questionIndex
          (some { selectedOptions := selectedOptions, timestamp := now }) }

/-- From `quizLogic.js` `navigateToNextQuestion`. -/
def navigateToNextQuestion (quizState : QuizState) (now : Nat) : QuizState :=
  let nextIndex := quizState.currentQuestionIndex + 1
  let isComplete := nextIndex ≥ quizState.questions.length
  { quizState with
      currentQuestionIndex := nextIndex
      isComplete := isComplete
      endTime := if isComplete then some now else quizState.endTime
      showFeedback := quizState.mode == "learn" }

/-- From `quizLogic.js` `navigateToPreviousQuestion`
(`Math.max(0, currentQuestionIndex - 1)`). -/
def navigateToPreviousQuestion (quizState : QuizState) : QuizState :=
  { quizState with
      currentQuestionIndex := max 0 (quizState.currentQuestionIndex - 1)
      showFeedback := quizState.mode == "learn" }

/-- From `quizLogic.js` `showQuestionFeedback`. -/
def showQuestionFeedback (quizState : QuizState) : QuizState :=
  { quizState with showFeedback := true }

/-- From `quizLogic.js` `isCurrentQuestionAnswered`:
`currentAnswer && currentAnswer.selectedOptions.length > 0` (a missing or
`null` slot is falsy). -/
def isCurrentQuestionAnswered (quizState : QuizState) : Bool :=
  match quizState.userAnswers[quizState.currentQuestionIndex]? with
  | some (some currentAnswer) => currentAnswer.selectedOptions.length > 0
  | _ => false

/-- From `QuizInterface.js` `handleNext` (the state transition it applies):
in a non-learn mode with feedback hidden and the current question answered it
only reveals feedback; otherwise it navigates to the next question. -/
def handleNext (quizState : QuizState) (now : Nat) : QuizState :=
  if quizState.mode != "learn" && !quizState.showFeedback &&
      isCurrentQuestionAnswered quizState then
    showQuestionFeedback quizState
  else
    navigateToNextQuestion quizState now

/-! ### Helper lemmas -/

theorem mathRound_eq_floor (x : ℚ) : mathRound x = ⌊x + 1/2⌋ := by
  unfold mathRound
  rw [Rat.floor_def, Rat.floor_def']

theorem mathRound_nat_div (c t : ℕ) (ht : 0 < t) :
    mathRound ((c : ℚ) / (t : ℚ) * 100) = ((200 * c + t) / (2 * t) : ℕ) := by
  rw [mathRound_eq_floor]
  have htq : (0 : ℚ) < (t : ℚ) := by exact_mod_cast ht
  have heq : (c : ℚ) / (t : ℚ) * 100 + 1/2 =
      (((200 * c + t : ℕ) : ℚ)) / (((2 * t : ℕ) : ℚ)) := by
    push_cast
    field_simp
    ring
  rw [heq, Rat.floor_natCast_div_natCast]
  norm_cast

/-- `arraysEqual` decides permutation equivalence: two `Nat` lists pass the
length check and have equal sorted copies exactly when one is a
rearrangement of the other. -/
theorem arraysEqual_iff_perm (l1 l2 : List Nat) :
    arraysEqual l1 l2 = true ↔ l1.Perm l2 := by
  unfold arraysEqual
  simp only [Bool.and_eq_true, beq_iff_eq]
  constructor
  · rintro ⟨hlen, hsort⟩
    have h1 := List.perm_insertionSort (· ≤ ·) l1
    have h2 := List.perm_insertionSort (· ≤ ·) l2
    exact h1.symm.trans (hsort ▸ h2)
  · intro hp
    refine ⟨hp.length_eq, ?_⟩
    refine List.eq_of_perm_of_sorted ?_ (List.sorted_insertionSort _ l1)
      (List.sorted_insertionSort _ l2)
    exact (List.perm_insertionSort _ l1).trans
      (hp.trans (List.perm_insertionSort _ l2).symm)

theorem validateAnswer_true_iff (sel : List Nat) (q : Question) :
    validateAnswer sel q = true ↔ sel.Perm (getCorrectOptions q) :=
  arraysEqual_iff_perm sel (getCorrectOptions q)

theorem cons_set_perm (x : α) : ∀ (xs : List α) (k : Nat) (hk : k < xs.length),
    List.Perm (xs.get ⟨k, hk⟩ :: xs.set k x) (x :: xs) := by
  intro xs
  induction xs with
  | nil => intro k hk; simp at hk
  | cons y ys ih =>
    intro k hk
    cases k with
    | zero => simpa using List.Perm.swap x y ys
    | succ k =>
      have hk2 : k < ys.length := by simpa using hk
      have step1 : List.Perm
          (ys.get ⟨k, hk2⟩ :: y :: ys.set k x)
          (y :: ys.get ⟨k, hk2⟩ :: ys.set k x) :=
        List.Perm.swap y (ys.get ⟨k, hk2⟩) (ys.set k x)
      have step2 : List.Perm
          (y :: ys.get ⟨k, hk2⟩ :: ys.set k x) (y :: x :: ys) :=
        (ih k hk2).cons y
      have step3 : List.Perm (y :: x :: ys) (x :: y :: ys) :=
        List.Perm.swap x y ys
      simpa using (step1.trans step2).trans step3

theorem set_set_perm : ∀ (l : List α) (i j : Nat) (hi : i < l.length)
    (hj : j < l.length),
    List.Perm ((l.set i (l.get ⟨j, hj⟩)).set j (l.get ⟨i, hi⟩)) l := by
  intro l
  induction l with
  | nil => intro i j hi hj; simp at hi
  | cons x xs ih =>
    intro i j hi hj
    cases i with
    | zero =>
      cases j with
      | zero => simp
      | succ m =>
        have hm : m < xs.length := by simpa using hj
        simpa using cons_set_perm x xs m hm
    | succ k =>
      have hk : k < xs.length := by simpa using hi
      cases j with
      | zero =>
        simpa using cons_set_perm x xs k hk
      | succ m =>
        have hm : m < xs.length := by simpa using hj
        simpa using (ih k m hk hm).cons x

theorem listSwap_perm (l : List α) (i j : Nat) : (listSwap l i j).Perm l := by
  unfold listSwap
  cases hi : l[i]? with
  | none => exact List.Perm.refl l
  | some xi =>
    cases hj : l[j]? with
    | none => exact List.Perm.refl l
    | some xj =>
      have hi2 : i < l.length := (List.getElem?_eq_some.mp hi).1
      have hj2 : j < l.length := (List.getElem?_eq_some.mp hj).1
      have exi : xi = l.get ⟨i, hi2⟩ := by
        have h := List.getElem?_eq_some.mp hi
        simp [List.get_eq_getElem, h.2]
      have exj : xj = l.get ⟨j, hj2⟩ := by
        have h := List.getElem?_eq_some.mp hj
        simp [List.get_eq_getElem, h.2]
      subst exi exj
      exact set_set_perm l i j hi2 hj2

theorem fisherYatesAux_perm (rand : Nat → Nat) :
    ∀ (n : Nat) (l : List α), (fisherYatesAux rand l n).Perm l := by
  intro n
  induction n with
  | zero => intro l; exact List.Perm.refl l
  | succ k ih =>
    intro l
    exact (ih (listSwap l (k + 1) (rand (k + 1) % (k + 2)))).trans
      (listSwap_perm l (k + 1) (rand (k + 1) % (k + 2)))

theorem shuffleArray_perm (l : List α) (rand : Nat → Nat) :
    (shuffleArray l rand).Perm l :=
  fisherYatesAux_perm rand (l.length - 1) l

/-- The identity of a question up to the order of its options: its number,
its prompt and the multiset of its options. -/
def questionKey (q : Question) : Nat × String × Multiset QOption :=
  (q.questionnumber, q.question, (q.options : Multiset QOption))

theorem shuffleQuestionOptions_key (q : Question) (rand : Nat → Nat) :
    questionKey (shuffleQuestionOptions q rand) = questionKey q := by
  unfold questionKey shuffleQuestionOptions
  refine congrArg (fun m => (q.questionnumber, q.question, m)) ?_
  exact Multiset.coe_eq_coe.mpr (shuffleArray_perm q.options rand)

theorem mapShuffleQuestionOptions_map_key (randO : Nat → Nat → Nat) :
    ∀ (qs : List Question) (i : Nat),
      (mapShuffleQuestionOptions randO i qs).map questionKey =
        qs.map questionKey := by
  intro qs
  induction qs with
  | nil => intro i; rfl
  | cons q rest ih =>
    intro i
    simp [mapShuffleQuestionOptions, shuffleQuestionOptions_key, ih (i + 1)]

theorem scoreLoop_fst (ua : List (Option UserAnswer)) :
    ∀ (qs : List Question) (i : Nat),
      (scoreLoop ua qs i).1 =
        (List.enumFrom i qs).countP
          (fun p => validateAnswer (selectionAt ua p.1) p.2) := by
  intro qs
  induction qs with
  | nil => intro i; rfl
  | cons q rest ih =>
    intro i
    cases h : validateAnswer (selectionAt ua i) q
    all_goals
      simp [scoreLoop, List.enumFrom, List.countP_cons, ih (i + 1),
        calculateQuestionScore, h]
    omega

/-! ### Claim theorems -/

/-- C2 counterexample: for a malformed question whose correct-option set is
empty, validating the empty selection returns `true`, not `false` — the two
empty lists pass `arraysEqual` (an empty JS array is truthy, so the
null-guard does not fire). -/
theorem validateAnswer_empty_empty_true :
    getCorrectOptions ⟨7, "q7", [⟨1, "a", false⟩, ⟨2, "b", false⟩]⟩ = [] ∧
    validateAnswer [] ⟨7, "q7", [⟨1, "a", false⟩, ⟨2, "b", false⟩]⟩ = true := by
  constructor
  · rfl
  · rfl

/-- C2 (amended): an empty selection validates `false` whenever the question
has at least one correct option; against a question with zero correct
options, a selection validates `true` exactly when it is itself empty (so
such a question is not "always incorrect": the empty selection passes), and
no input raises an error (`validateAnswer` is total). -/
theorem validateAnswer_empty_selection (sel : List Nat) (q : Question) :
    (getCorrectOptions q = [] → (validateAnswer sel q = true ↔ sel = [])) ∧
    (getCorrectOptions q ≠ [] → validateAnswer [] q = false) := by
  constructor
  · intro h
    rw [validateAnswer_true_iff, h]
    exact List.perm_nil
  · intro h
    have hne : ¬ validateAnswer [] q = true := by
      rw [validateAnswer_true_iff, List.nil_perm]
      exact fun hc => h hc
    exact Bool.eq_false_iff.mpr hne

/-- Witness for C2 (amended) at concrete inputs. -/
theorem validateAnswer_empty_selection_witness :
    (validateAnswer [] ⟨7, "q7", [⟨1, "a", false⟩]⟩ = true ↔ ([] : List Nat) = []) ∧
    validateAnswer [] ⟨1, "q1", [⟨1, "a", true⟩]⟩ = false :=
  ⟨(validateAnswer_empty_selection [] ⟨7, "q7", [⟨1, "a", false⟩]⟩).1 (by decide),
   (validateAnswer_empty_selection [] ⟨1, "q1", [⟨1, "a", true⟩]⟩).2 (by decide)⟩

/-- C3 counterexample: duplicates in the selection are NOT ignored.  Against
a question whose correct set is `{1}`, the selection `[1, 1]` validates
`false` while its deduplicated set `[1]` validates `true` — the length check
in `arraysEqual` compares list lengths, not set sizes. -/
theorem validateAnswer_duplicates_not_ignored :
    validateAnswer [1, 1] ⟨1, "q1", [⟨1, "a", true⟩, ⟨2, "b", false⟩]⟩ = false ∧
    validateAnswer ([1, 1].dedup) ⟨1, "q1", [⟨1, "a", true⟩, ⟨2, "b", false⟩]⟩ = true := by
  constructor
  · rfl
  · rfl

/-- C3 (amended): answer validation treats the selection as a list with
multiplicity, not as a set: it succeeds exactly when the selection is a
permutation of the question's correct-option list, so a selection with
repeated occurrences of a correct identifier (e.g. `[A, A]` against `{A}`)
fails the length check and is judged incorrect, unlike its deduplicated
set. -/
theorem validateAnswer_multiset_semantics (sel : List Nat) (q : Question) :
    validateAnswer sel q = true ↔ sel.Perm (getCorrectOptions q) :=
  validateAnswer_true_iff sel q

/-- C6: for a question whose option identifiers are distinct (the data-model
invariant) and a duplicate-free selection, validation succeeds exactly when
the selected identifiers form the same set as the question's correct option
identifiers — order irrelevant.  Single- and multi-answer questions go
through this single rule (`validateAnswer` never branches on the size of the
correct set). -/
theorem validateAnswer_set_equality (sel : List Nat) (q : Question)
    (hsel : sel.Nodup)
    (hq : (q.options.map (fun o => o.optionnumber)).Nodup) :
    validateAnswer sel q = true ↔
      sel.toFinset = (getCorrectOptions q).toFinset := by
  have hsub : (getCorrectOptions q).Sublist
      (q.options.map (fun o => o.optionnumber)) :=
    List.Sublist.map _ (List.filter_sublist q.options)
  have hcor : (getCorrectOptions q).Nodup := List.Nodup.sublist hsub hq
  rw [validateAnswer_true_iff]
  constructor
  · intro hp
    exact List.toFinset_eq_of_perm _ _ hp
  · intro h
    exact List.perm_of_nodup_nodup_toFinset_eq hsel hcor h

/-- Witness for C6: the order-reversed selection `[3, 1]` against correct
set `{1, 3}` validates `true`. -/
theorem validateAnswer_set_equality_witness :
    validateAnswer [3, 1]
      ⟨1, "q1", [⟨1, "a", true⟩, ⟨2, "b", false⟩, ⟨3, "c", true⟩]⟩ = true :=
  (validateAnswer_set_equality [3, 1]
      ⟨1, "q1", [⟨1, "a", true⟩, ⟨2, "b", false⟩, ⟨3, "c", true⟩]⟩
      (by decide) (by decide)).mpr (by decide)

/-- C7: `shuffleArray` returns a permutation of its input — the same
elements as a multiset, none dropped or duplicated — for every stream of
random draws, and the empty input yields the empty output.  The source
copies the input (`[...array]`) before swapping in place, so the input
array is not mutated; in this embedding `shuffleArray` is a pure function
of the input list. -/
theorem shuffleArray_is_permutation {α : Type} (l : List α) (rand : Nat → Nat) :
    (shuffleArray l rand).Perm l ∧
    ((shuffleArray l rand : Multiset α) = (l : Multiset α)) ∧
    (l = [] → shuffleArray l rand = []) := by
  refine ⟨shuffleArray_perm l rand,
    Multiset.coe_eq_coe.mpr (shuffleArray_perm l rand), ?_⟩
  intro h
  subst h
  rfl

/-- Witness for C7 on concrete inputs. -/
theorem shuffleArray_is_permutation_witness :
    (shuffleArray [5, 6, 7] (fun n => n * 3)).Perm [5, 6, 7] ∧
    shuffleArray ([] : List Nat) (fun n => n * 3) = [] :=
  ⟨(shuffleArray_is_permutation [5, 6, 7] (fun n => n * 3)).1,
   (shuffleArray_is_permutation ([] : List Nat) (fun n => n * 3)).2.2 rfl⟩

/-- C8: mode preparation returns the question list unchanged (a shallow,
order-preserving copy) in every mode other than `"test-difficult"` — in
particular in learn (`"learn"`) and sequential-test (`"test-easy"`) modes —
while in `"test-difficult"` (randomized) mode it permutes the question order
and independently shuffles each question's option list: up to `questionKey`
(question number, prompt, options as a multiset) the output is a
permutation of the input.  New `Question` values are built by record update;
the embedding is pure, so the input questions are untouched. -/
theorem prepareQuestionsForMode_spec (questions : List Question) (mode : String)
    (randQ : Nat → Nat) (randO : Nat → Nat → Nat) :
    (mode ≠ "test-difficult" →
      prepareQuestionsForMode questions mode randQ randO = questions) ∧
    (mode = "test-difficult" →
      ((prepareQuestionsForMode questions mode randQ randO).map questionKey).Perm
        (questions.map questionKey)) := by
  constructor
  · intro h
    simp [prepareQuestionsForMode, h]
  · intro h
    subst h
    simp only [prepareQuestionsForMode, beq_self_eq_true, if_true]
    rw [mapShuffleQuestionOptions_map_key]
    exact List.Perm.map questionKey (shuffleArray_perm questions randQ)

/-- Witness for C8: `"learn"` mode preserves a concrete list; in
`"test-difficult"` mode the output is a `questionKey`-permutation of the
input. -/
theorem prepareQuestionsForMode_spec_witness :
    prepareQuestionsForMode [⟨1, "q1", [⟨1, "a", true⟩]⟩] "learn"
      (fun _ => 0) (fun _ _ => 0) = [⟨1, "q1", [⟨1, "a", true⟩]⟩] ∧
    ((prepareQuestionsForMode [⟨1, "q1", [⟨1, "a", true⟩]⟩] "test-difficult"
        (fun _ => 0) (fun _ _ => 0)).map questionKey).Perm
      ([⟨1, "q1", [⟨1, "a", true⟩]⟩].map questionKey) :=
  ⟨(prepareQuestionsForMode_spec [⟨1, "q1", [⟨1, "a", true⟩]⟩] "learn"
      (fun _ => 0) (fun _ _ => 0)).1 (by decide),
   (prepareQuestionsForMode_spec [⟨1, "q1", [⟨1, "a", true⟩]⟩] "test-difficult"
      (fun _ => 0) (fun _ _ => 0)).2 rfl⟩

/-- C9: `navigateToPreviousQuestion` decrements `currentQuestionIndex` by one
floored at zero (in particular it leaves index 0 at 0) and resets
`showFeedback` to whether the mode is learn mode. -/
theorem navigateToPreviousQuestion_spec (s : QuizState) :
    (navigateToPreviousQuestion s).currentQuestionIndex =
      s.currentQuestionIndex - 1 ∧
    (s.currentQuestionIndex = 0 →
      (navigateToPreviousQuestion s).currentQuestionIndex = 0) ∧
    (navigateToPreviousQuestion s).showFeedback = (s.mode == "learn") := by
  refine ⟨?_, ?_, rfl⟩
  · show max 0 (s.currentQuestionIndex - 1) = s.currentQuestionIndex - 1
    exact Nat.zero_max _
  · intro h
    simp [navigateToPreviousQuestion, h]

/-- Witness for C9: retreating at index 0 stays at index 0. -/
theorem navigateToPreviousQuestion_spec_witness :
    (navigateToPreviousQuestion
      ⟨"1", "learn", [⟨1, "q1", [⟨1, "a", true⟩]⟩], 0, [none], 0, none,
        false, true⟩).currentQuestionIndex = 0 :=
  (navigateToPreviousQuestion_spec
    ⟨"1", "learn", [⟨1, "q1", [⟨1, "a", true⟩]⟩], 0, [none], 0, none,
      false, true⟩).2.1 rfl

/-- Concrete completed session used to refute C4. -/
def completedSession : QuizState :=
  ⟨"1", "test-easy", [⟨1, "q1", [⟨1, "a", true⟩]⟩], 1, [none], 0, some 9,
    true, false⟩

/-- C4 counterexample: `updateQuizStateWithAnswer` never checks
`isComplete`; called on a completed session it returns a state whose answer
slot has been filled, which is different from the input session — not a
no-op. -/
theorem updateQuizStateWithAnswer_completed_not_noop :
    completedSession.isComplete = true ∧
    updateQuizStateWithAnswer completedSession 0 [1] 10 ≠ completedSession := by
  refine ⟨rfl, ?_⟩
  intro h
  have := congrArg QuizState.userAnswers h
  simp [updateQuizStateWithAnswer, completedSession] at this

/-- C4 (amended): `updateQuizStateWithAnswer` does not special-case completed
sessions: on a session with `isComplete = true` it still records the answer
at the given index in a copy of the answers array and returns the updated
state; every other field, and every answer slot other than the written one,
is preserved, and the input state value itself is not modified (the source
writes into a copied array, `[...quizState.userAnswers]`). -/
theorem updateQuizStateWithAnswer_completed_records (s : QuizState) (i : Nat)
    (sel : List Nat) (now : Nat) (hc : s.isComplete = true) :
    (updateQuizStateWithAnswer s i sel now).isComplete = true ∧
    (updateQuizStateWithAnswer s i sel now).assignment = s.assignment ∧
    (updateQuizStateWithAnswer s i sel now).mode = s.mode ∧
    (updateQuizStateWithAnswer s i sel now).questions = s.questions ∧
    (updateQuizStateWithAnswer s i sel now).currentQuestionIndex =
      s.currentQuestionIndex ∧
    (updateQuizStateWithAnswer s i sel now).startTime = s.startTime ∧
    (updateQuizStateWithAnswer s i sel now).endTime = s.endTime ∧
    (updateQuizStateWithAnswer s i sel now).showFeedback = s.showFeedback ∧
    (i < s.userAnswers.length →
      (updateQuizStateWithAnswer s i sel now).userAnswers[i]? =
        some (some ⟨sel, now⟩)) ∧
    (∀ k, k ≠ i →
      (updateQuizStateWithAnswer s i sel now).userAnswers[k]? =
        s.userAnswers[k]?) := by
  refine ⟨hc, rfl, rfl, rfl, rfl, rfl, rfl, rfl, ?_, ?_⟩
  · intro hi
    exact List.getElem?_set_self hi
  · intro k hk
    exact List.getElem?_set_ne (fun he => hk he.symm)

/-- Witness for C4 (amended) on the concrete completed session. -/
theorem updateQuizStateWithAnswer_completed_records_witness :
    (updateQuizStateWithAnswer completedSession 0 [1] 10).isComplete = true ∧
    (updateQuizStateWithAnswer completedSession 0 [1] 10).userAnswers[0]? =
      some (some ⟨[1], 10⟩) :=
  ⟨(updateQuizStateWithAnswer_completed_records completedSession 0 [1] 10
      rfl).1,
   (updateQuizStateWithAnswer_completed_records completedSession 0 [1] 10
      rfl).2.2.2.2.2.2.2.2.1 (by decide)⟩

/-- C1: for an in-progress session with a valid mode, the advance transition
(`handleNext`) is the two-step machine.  If the mode is a test mode
(`"test-easy"` or `"test-difficult"`), feedback is hidden and the current
question has a non-empty recorded answer, it only reveals feedback and moves
nothing else; otherwise it increments `currentQuestionIndex`, resets
`showFeedback` to whether the mode is learn mode, and, exactly when the new
index equals the number of questions, marks the session complete and stamps
the end time. -/
theorem handleNext_two_step (s : QuizState) (now : Nat)
    (hmode : s.mode = "learn" ∨ s.mode = "test-easy" ∨ s.mode = "test-difficult")
    (hidx : s.currentQuestionIndex < s.questions.length)
    (_hrun : s.isComplete = false) :
    ((s.mode = "test-easy" ∨ s.mode = "test-difficult") →
      s.showFeedback = false → isCurrentQuestionAnswered s = true →
      handleNext s now = { s with showFeedback := true }) ∧
    (¬((s.mode = "test-easy" ∨ s.mode = "test-difficult") ∧
        s.showFeedback = false ∧ isCurrentQuestionAnswered s = true) →
      handleNext s now =
        { s with
            currentQuestionIndex := s.currentQuestionIndex + 1
            showFeedback := s.mode == "learn"
            isComplete := decide (s.currentQuestionIndex + 1 = s.questions.length)
            endTime :=
              if s.currentQuestionIndex + 1 = s.questions.length then some now
              else s.endTime }) := by
  have hcomplete :
      (s.currentQuestionIndex + 1 ≥ s.questions.length) =
        (s.currentQuestionIndex + 1 = s.questions.length) := by
    apply propext
    omega
  have hnav : navigateToNextQuestion s now =
      { s with
          currentQuestionIndex := s.currentQuestionIndex + 1
          showFeedback := s.mode == "learn"
          isComplete := decide (s.currentQuestionIndex + 1 = s.questions.length)
          endTime :=
            if s.currentQuestionIndex + 1 = s.questions.length then some now
            else s.endTime } := by
    simp only [navigateToNextQuestion, hcomplete]
  constructor
  · intro ht hf ha
    have hm : (s.mode != "learn") = true := by
      rcases ht with h | h <;> rw [h] <;> rfl
    unfold handleNext
    rw [if_pos (by rw [hm, hf, ha]; rfl)]
    rfl
  · intro hn
    have hcond : ((s.mode != "learn") && !s.showFeedback &&
        isCurrentQuestionAnswered s) = false := by
      rcases hmode with h | h | h
      · rw [h]
        rfl
      · cases hb : s.showFeedback
        · cases hc : isCurrentQuestionAnswered s
          · simp
          · exact absurd ⟨Or.inl h, hb, hc⟩ hn
        · simp
      · cases hb : s.showFeedback
        · cases hc : isCurrentQuestionAnswered s
          · simp
          · exact absurd ⟨Or.inr h, hb, hc⟩ hn
        · simp
    unfold handleNext
    rw [if_neg (by rw [hcond]; exact Bool.false_ne_true)]
    exact hnav

/-- Concrete in-progress test-mode session (answered, feedback hidden). -/
def testSessionAnswered : QuizState :=
  ⟨"1", "test-easy", [⟨1, "q1", [⟨1, "a", true⟩]⟩], 0, [some ⟨[1], 0⟩], 0,
    none, false, false⟩

/-- Concrete in-progress learn-mode session (unanswered). -/
def learnSessionFresh : QuizState :=
  ⟨"1", "learn", [⟨1, "q1", [⟨1, "a", true⟩]⟩], 0, [none], 0, none,
    false, true⟩

/-- Witness for C1: the reveal branch on a concrete answered test session,
and the move branch on a concrete learn session (which completes the
one-question quiz and stamps the end time). -/
theorem handleNext_two_step_witness :
    handleNext testSessionAnswered 5 =
      { testSessionAnswered with showFeedback := true } ∧
    handleNext learnSessionFresh 5 =
      { learnSessionFresh with
          currentQuestionIndex := learnSessionFresh.currentQuestionIndex + 1
          showFeedback := learnSessionFresh.mode == "learn"
          isComplete := decide (learnSessionFresh.currentQuestionIndex + 1 =
            learnSessionFresh.questions.length)
          endTime :=
            if learnSessionFresh.currentQuestionIndex + 1 =
                learnSessionFresh.questions.length then some 5
            else learnSessionFresh.endTime } :=
  ⟨(handleNext_two_step testSessionAnswered 5 (by decide) (by decide)
      (by decide)).1 (Or.inl rfl) rfl rfl,
   (handleNext_two_step learnSessionFresh 5 (by decide) (by decide)
      (by decide)).2 (by decide)⟩

/-- C10: every state-machine operation is a pure function returning a new
state value and leaves the state it is given unchanged (value semantics of
the embedding; the source builds each result with object/array spreads).
Frame conditions: `updateQuizStateWithAnswer` changes nothing but the one
answer slot it writes (in a copied array, preserving every other slot and
the array length); `navigateToNextQuestion` and `navigateToPreviousQuestion`
preserve the identification fields, the questions and all recorded answers;
`showQuestionFeedback` changes only `showFeedback`. -/
theorem stateMachine_frame (s : QuizState) (i : Nat) (sel : List Nat)
    (now : Nat) :
    ((updateQuizStateWithAnswer s i sel now).assignment = s.assignment ∧
     (updateQuizStateWithAnswer s i sel now).mode = s.mode ∧
     (updateQuizStateWithAnswer s i sel now).questions = s.questions ∧
     (updateQuizStateWithAnswer s i sel now).currentQuestionIndex =
       s.currentQuestionIndex ∧
     (updateQuizStateWithAnswer s i sel now).startTime = s.startTime ∧
     (updateQuizStateWithAnswer s i sel now).endTime = s.endTime ∧
     (updateQuizStateWithAnswer s i sel now).isComplete = s.isComplete ∧
     (updateQuizStateWithAnswer s i sel now).showFeedback = s.showFeedback ∧
     (updateQuizStateWithAnswer s i sel now).userAnswers.length =
       s.userAnswers.length) ∧
    ((navigateToNextQuestion s now).assignment = s.assignment ∧
     (navigateToNextQuestion s now).mode = s.mode ∧
     (navigateToNextQuestion s now).questions = s.questions ∧
     (navigateToNextQuestion s now).userAnswers = s.userAnswers ∧
     (navigateToNextQuestion s now).startTime = s.startTime) ∧
    ((navigateToPreviousQuestion s).assignment = s.assignment ∧
     (navigateToPreviousQuestion s).mode = s.mode ∧
     (navigateToPreviousQuestion s).questions = s.questions ∧
     (navigateToPreviousQuestion s).userAnswers = s.userAnswers ∧
     (navigateToPreviousQuestion s).startTime = s.startTime ∧
     (navigateToPreviousQuestion s).endTime = s.endTime ∧
     (navigateToPreviousQuestion s).isComplete = s.isComplete) ∧
    (showQuestionFeedback s = { s with showFeedback := true }) ∧
    (∀ k, k ≠ i →
      (updateQuizStateWithAnswer s i sel now).userAnswers[k]? =
        s.userAnswers[k]?) := by
  refine ⟨⟨rfl, rfl, rfl, rfl, rfl, rfl, rfl, rfl, ?_⟩,
    ⟨rfl, rfl, rfl, rfl, rfl⟩, ⟨rfl, rfl, rfl, rfl, rfl, rfl, rfl⟩, rfl, ?_⟩
  · exact List.length_set s.userAnswers i _
  · intro k hk
    exact List.getElem?_set_ne (fun he => hk he.symm)

/-- Witness for C10: recording an answer at index 0 of a concrete
two-question session leaves the answer slot at index 1 untouched. -/
theorem stateMachine_frame_witness :
    (updateQuizStateWithAnswer
        ⟨"1", "test-easy",
          [⟨1, "q1", [⟨1, "a", true⟩]⟩, ⟨2, "q2", [⟨1, "a", true⟩]⟩], 0,
          [none, some ⟨[1], 2⟩], 0, none, false, false⟩
        0 [1] 7).userAnswers[1]? =
      ([none, some ⟨[1], 2⟩] : List (Option UserAnswer))[1]? :=
  (stateMachine_frame
      ⟨"1", "test-easy",
        [⟨1, "q1", [⟨1, "a", true⟩]⟩, ⟨2, "q2", [⟨1, "a", true⟩]⟩], 0,
        [none, some ⟨[1], 2⟩], 0, none, false, false⟩
      0 [1] 7).2.2.2.2 1 (by decide)

/-- The spec's scoring example: 3 questions answered `{A}` (correct),
`{A,B}` (correct, multi-answer), `{B}` (incorrect). -/
def exampleQuestions : List Question :=
  [⟨1, "q1", [⟨1, "A", true⟩, ⟨2, "B", false⟩]⟩,
   ⟨2, "q2", [⟨1, "A", true⟩, ⟨2, "B", true⟩, ⟨3, "C", false⟩]⟩,
   ⟨3, "q3", [⟨1, "A", true⟩, ⟨2, "B", false⟩]⟩]

/-- The answers of the spec's scoring example. -/
def exampleAnswers : List (Option UserAnswer) :=
  [some ⟨[1], 0⟩, some ⟨[1, 2], 0⟩, some ⟨[2], 0⟩]

/-- C5: the summary of `calculateTotalScore` satisfies: `total` is the
number of questions; `correct` counts the questions whose recorded (or
defaulted-to-empty) selection validates; with no questions the percentage is
0 and no division happens; otherwise the percentage is the round-half-up
`⌊correct / total * 100 + 1/2⌋`, equal to the integer
`(200 * correct + total) / (2 * total)`; and `passed` holds exactly when the
percentage is at least 70.  In particular the spec example — 2 correct out
of 3 — scores percentage 67 and does not pass. -/
theorem calculateTotalScore_spec (ua : List (Option UserAnswer))
    (qs : List Question) :
    (calculateTotalScore ua qs).total = qs.length ∧
    (calculateTotalScore ua qs).correct =
      qs.enum.countP (fun p => validateAnswer (selectionAt ua p.1) p.2) ∧
    (qs.length = 0 → (calculateTotalScore ua qs).percentage = 0) ∧
    (0 < qs.length → (calculateTotalScore ua qs).percentage =
      ⌊(((calculateTotalScore ua qs).correct : ℚ) / (qs.length : ℚ) * 100) +
        1/2⌋) ∧
    (0 < qs.length → (calculateTotalScore ua qs).percentage =
      (((200 * (calculateTotalScore ua qs).correct + qs.length) /
          (2 * qs.length) : ℕ) : ℤ)) ∧
    ((calculateTotalScore ua qs).passed = true ↔
      70 ≤ (calculateTotalScore ua qs).percentage) ∧
    ((calculateTotalScore exampleAnswers exampleQuestions).correct = 2 ∧
     (calculateTotalScore exampleAnswers exampleQuestions).total = 3 ∧
     (calculateTotalScore exampleAnswers exampleQuestions).percentage = 67 ∧
     (calculateTotalScore exampleAnswers exampleQuestions).passed = false) := by
  have hex : (calculateTotalScore exampleAnswers exampleQuestions).percentage
      = 67 := by
    have hc2 : (scoreLoop exampleAnswers exampleQuestions 0).1 = 2 := by rfl
    have hval : (calculateTotalScore exampleAnswers exampleQuestions).percentage
        = mathRound (((2 : ℕ) : ℚ) / ((3 : ℕ) : ℚ) * 100) := by
      show (if exampleQuestions.length > 0 then
          mathRound (((scoreLoop exampleAnswers exampleQuestions 0).1 : ℚ) /
            (exampleQuestions.length : ℚ) * 100)
        else 0) = mathRound (((2 : ℕ) : ℚ) / ((3 : ℕ) : ℚ) * 100)
      rw [if_pos (by decide), hc2]
      rfl
    rw [hval, mathRound_nat_div 2 3 (by norm_num)]
    norm_num
  refine ⟨rfl, ?_, ?_, ?_, ?_, ?_, by rfl, by rfl, hex, ?_⟩
  · show (scoreLoop ua qs 0).1 = _
    rw [scoreLoop_fst]
    rfl
  · intro h
    have hq : qs = [] := List.eq_nil_of_length_eq_zero h
    subst hq
    rfl
  · intro h
    show (if qs.length > 0 then
        mathRound (((scoreLoop ua qs 0).1 : ℚ) / (qs.length : ℚ) * 100)
      else 0) = _
    rw [if_pos h]
    exact mathRound_eq_floor _
  · intro h
    show (if qs.length > 0 then
        mathRound (((scoreLoop ua qs 0).1 : ℚ) / (qs.length : ℚ) * 100)
      else 0) = _
    rw [if_pos h]
    exact mathRound_nat_div _ _ h
  · exact decide_eq_true_iff
  · show decide (70 ≤
      (calculateTotalScore exampleAnswers exampleQuestions).percentage) = false
    rw [hex]
    rfl

/-- Witness for C5: the zero-question case scores percentage 0, and a
one-question quiz with its question answered correctly satisfies the
closed-form rounding. -/
theorem calculateTotalScore_spec_witness :
    (calculateTotalScore [] ([] : List Question)).percentage = 0 ∧
    (calculateTotalScore [some ⟨[1], 0⟩] [⟨1, "q1", [⟨1, "a", true⟩]⟩]).percentage =
      (((200 * (calculateTotalScore [some ⟨[1], 0⟩]
          [⟨1, "q1", [⟨1, "a", true⟩]⟩]).correct +
        ([⟨1, "q1", [⟨1, "a", true⟩]⟩] : List Question).length) /
        (2 * ([⟨1, "q1", [⟨1, "a", true⟩]⟩] : List Question).length) : ℕ) : ℤ) :=
  ⟨(calculateTotalScore_spec [] []).2.2.1 rfl,
   (calculateTotalScore_spec [some ⟨[1], 0⟩]
      [⟨1, "q1", [⟨1, "a", true⟩]⟩]).2.2.2.2.1 (by decide)⟩
